import Mathlib

/-!
Verification of the order-construction and signing subsystem of the `diced`
trading client (packages/order-book and packages/signer).

The numeric code is embedded over `ℚ` (exact rationals): the source computes
with JS numbers, whose intended semantics per the spec is exact decimal
arithmetic with explicit rounding steps.  String-valued amounts are produced
with `toString` on the integer results, matching `Math.floor(x).toString()`.
-/

namespace Diced

/-- Order side, from `export type OrderSide = "BUY" | "SELL"` in
`packages/order-book/src/requests/order.ts`. -/
inductive OrderSide
  | BUY
  | SELL
deriving DecidableEq, Repr

/-- Signature scheme, from
`export type SignatureType = "eoa" | "poly-proxy" | "poly-gnosis-safe"`. -/
inductive SignatureType
  | eoa
  | polyProxy
  | polyGnosisSafe
deriving DecidableEq, Repr

/-- `signatureTypeToNumber` from `order.ts`: switch over the three labels. -/
def signatureTypeToNumber : SignatureType → ℕ
  | .eoa => 0
  | .polyProxy => 1
  | .polyGnosisSafe => 2

/-- `orderSideToNumber` from `order.ts`: `side === "BUY" ? 0 : 1`. -/
def orderSideToNumber (side : OrderSide) : ℕ :=
  if side = .BUY then 0 else 1

/-- Modelled from the spec: rounding of a rational to the nearest integer,
halves away from zero.  The helper `roundTo` lives in `utils.ts`, which is not
among the provided sources; the spec fixes its behaviour as
"standard round-half-away-from-zero". -/
def roundHalfAwayFromZero (x : ℚ) : ℤ :=
  if 0 ≤ x then ⌊x + 1 / 2⌋ else -⌊-x + 1 / 2⌋

/-- Modelled from the spec: `roundTo(x, n)` rounds `x` to `n` decimal places
(round half away from zero), per spec section 4.1. -/
def roundTo (x : ℚ) (n : ℕ) : ℚ :=
  (roundHalfAwayFromZero (x * 10 ^ n) : ℚ) / 10 ^ n

/-- `tickSize.split(".")[1]?.length || 0` from `calculateOrderAmounts`:
the number of characters of the second dot-separated component, or `0`
when there is none (or it is empty). -/
def tickDecimalsOf (tickSize : String) : ℕ :=
  match (tickSize.data.splitOn '.')[1]? with
  | some frac => frac.length
  | none => 0

/-- `const sizeDecimals = 2` in `calculateOrderAmounts` (fixed). -/
def sizeDecimals : ℕ := 2

/-- `const amountDecimals = tickDecimals + sizeDecimals`. -/
def amountDecimalsOf (tickSize : String) : ℕ :=
  tickDecimalsOf tickSize + sizeDecimals

/-- `const roundedPrice = roundTo(price, tickDecimals)`. -/
def roundedPriceOf (price : ℚ) (tickSize : String) : ℚ :=
  roundTo price (tickDecimalsOf tickSize)

/-- `const shares = roundTo(size, sizeDecimals)`. -/
def sharesOf (size : ℚ) : ℚ :=
  roundTo size sizeDecimals

/-- `const cost = roundTo(shares * roundedPrice, amountDecimals)`. -/
def costOf (price size : ℚ) (tickSize : String) : ℚ :=
  roundTo (sharesOf size * roundedPriceOf price tickSize) (amountDecimalsOf tickSize)

/-- `const sharesRaw = Math.floor(shares * 10 ** sizeDecimals)` (before
`.toString()`). -/
def sharesRawOf (size : ℚ) : ℤ :=
  ⌊sharesOf size * 10 ^ sizeDecimals⌋

/-- `const costRaw = Math.floor(cost * 10 ** amountDecimals)` (before
`.toString()`). -/
def costRawOf (price size : ℚ) (tickSize : String) : ℤ :=
  ⌊costOf price size tickSize * 10 ^ amountDecimalsOf tickSize⌋

/-- The record returned by `calculateOrderAmounts`. -/
structure OrderAmounts where
  maker : String
  taker : String
deriving DecidableEq, Repr

/-- `calculateOrderAmounts` from `order.ts`: BUY returns
`{maker: costRaw, taker: sharesRaw}`, SELL returns
`{maker: sharesRaw, taker: costRaw}`, as decimal strings. -/
def calculateOrderAmounts (side : OrderSide) (size price : ℚ) (tickSize : String) :
    OrderAmounts :=
  if side = .BUY then
    { maker := toString (costRawOf price size tickSize)
      taker := toString (sharesRawOf size) }
  else
    { maker := toString (sharesRawOf size)
      taker := toString (costRawOf price size tickSize) }

/-- `zeroAddress` from viem, used by `createOrder` for public orders. -/
def zeroAddress : String := "0x0000000000000000000000000000000000000000"

/-- `ContractConfig` field used by `signOrder`; the full record lives in
`contract.ts`, which is not among the provided sources. -/
structure ContractConfig where
  negRiskExchange : String
deriving DecidableEq, Repr

/-- Modelled from the spec: `POLYGON_CONTRACTS` from `contract.ts` is not among
the provided sources; the spec only fixes that the registry has a mainnet
entry and a test-network entry, keyed by chain id.  The address value is a
placeholder; only the identity of the selected entry matters below. -/
def POLYGON_CONTRACTS : ContractConfig :=
  { negRiskExchange := "polygon-mainnet-neg-risk-exchange" }

/-- Modelled from the spec: `POLYGON_AMOY_CONTRACTS` from `contract.ts`
(test-network entry), with a placeholder address distinct from the mainnet
entry. -/
def POLYGON_AMOY_CONTRACTS : ContractConfig :=
  { negRiskExchange := "polygon-amoy-neg-risk-exchange" }

/-- `getContractForChain` from `order.ts`:
`chainId === 137 ? POLYGON_CONTRACTS : POLYGON_AMOY_CONTRACTS`. -/
def getContractForChain (chainId : ℕ) : ContractConfig :=
  if chainId = 137 then POLYGON_CONTRACTS else POLYGON_AMOY_CONTRACTS

/-- The `Order` record from `order.ts` (all amount/id fields are decimal
strings at this layer). -/
structure Order where
  salt : String
  maker : String
  signer : String
  taker : String
  tokenId : String
  makerAmount : String
  takerAmount : String
  expiration : String
  nonce : String
  feeRateBps : String
  side : OrderSide
  signatureType : SignatureType
deriving DecidableEq, Repr

/-- `SignedOrder = Order & { signature: string }`. -/
structure SignedOrder extends Order where
  signature : String
deriving DecidableEq, Repr

/-- JS `BigInt(s)` on the decimal strings produced by `toString` of integers.
(On a non-numeric string JS throws; that case is unreachable here because
every string fed to `BigInt` in `signOrder` was produced by `toString` on an
integer, and is mapped to `0` in this model.) -/
def BigIntOfString (s : String) : ℤ :=
  (s.toInt?).getD 0

/-- The `message` record passed to `wallet.signTypedData` by `signOrder`:
amount/id fields are integers (`BigInt(...)`), `side` and `signatureType`
are the integer codes. -/
structure OrderMessage where
  salt : ℤ
  signer : String
  maker : String
  taker : String
  tokenId : ℤ
  nonce : ℤ
  feeRateBps : ℤ
  expiration : ℤ
  side : ℕ
  signatureType : ℕ
  makerAmount : ℤ
  takerAmount : ℤ
deriving DecidableEq, Repr

/-- The `domain` record passed to `wallet.signTypedData` by `signOrder`. -/
structure TypedDataDomain where
  name : String
  version : String
  chainId : ℤ
  verifyingContract : String
deriving DecidableEq, Repr

/-- The full typed-data argument of `wallet.signTypedData` in `signOrder`
(the static `types` schema is a fixed literal and is omitted). -/
structure OrderTypedData where
  primaryType : String
  domain : TypedDataDomain
  message : OrderMessage
deriving DecidableEq, Repr

/-- The typed-data payload built inside `signOrder` from the order and the
wallet's chain id, exactly as passed to `wallet.signTypedData`. -/
def buildOrderTypedData (chainId : ℕ) (order : Order) : OrderTypedData :=
  { primaryType := "Order"
    domain :=
      { name := "Polymarket CTF Exchange"
        version := "1"
        chainId := (chainId : ℤ)
        verifyingContract := (getContractForChain chainId).negRiskExchange }
    message :=
      { salt := BigIntOfString order.salt
        signer := order.signer
        maker := order.maker
        taker := order.taker
        tokenId := BigIntOfString order.tokenId
        nonce := BigIntOfString order.nonce
        feeRateBps := BigIntOfString order.feeRateBps
        expiration := BigIntOfString order.expiration
        side := orderSideToNumber order.side
        signatureType := signatureTypeToNumber order.signatureType
        makerAmount := BigIntOfString order.makerAmount
        takerAmount := BigIntOfString order.takerAmount } }

/-- The wallet collaborator of `OrderRequests` (`client.wallet`): account
address, chain id, the optional `account.getNonce` method, and the opaque
external `signTypedData` capability.  Fallible external calls return
`Except ε` over an abstract error type `ε`. -/
structure Wallet (ε : Type) where
  address : String
  chainId : ℕ
  getNonceMethod : Option (Except ε ℕ)
  signTypedData : OrderTypedData → Except ε String

/-- `getNonce` from `order.ts`:
`account.getNonce ? await account.getNonce() : 0n`. -/
def getNonce {ε : Type} (w : Wallet ε) : Except ε ℕ :=
  match w.getNonceMethod with
  | some r => r
  | none => Except.ok 0

/-- `signOrder` from `order.ts`: hands the typed-data payload to the external
signer. -/
def signOrder {ε : Type} (w : Wallet ε) (order : Order) : Except ε String :=
  w.signTypedData (buildOrderTypedData w.chainId order)

/-- `CreateOrderParams` from `order.ts` (`taker` is a hex address or the
literal `"public"`). -/
structure CreateOrderParams where
  tokenId : String
  price : ℚ
  side : OrderSide
  size : ℚ
  expiration : ℤ
  taker : String
deriving DecidableEq, Repr

/-- The environment of a `createOrder` call: the wallet, the market-data
collaborator (`market.getTickSize`, `market.getFeeRateBps`), and the value
drawn from ambient randomness by `generateSalt()` (a non-negative integer,
`Math.round(Math.random() * Date.now())`). -/
structure OrderEnv (ε : Type) where
  wallet : Wallet ε
  getTickSize : String → Except ε String
  getFeeRateBps : String → Except ε ℤ
  salt : ℕ

/-- `createOrder` from `order.ts`: awaits the three external reads
(`Promise.all`), builds the unsigned order, signs it, and returns the signed
order.  `Promise.all`'s join is modelled monadically: the result is an error
as soon as any of the three reads is, and the order is built only from the
three successful values. -/
def createOrder {ε : Type} (env : OrderEnv ε) (params : CreateOrderParams) :
    Except ε SignedOrder := do
  let tickSize ← env.getTickSize params.tokenId
  let feeRateBps ← env.getFeeRateBps params.tokenId
  let nonce ← getNonce env.wallet
  let address := env.wallet.address
  let amounts := calculateOrderAmounts params.side params.size params.price tickSize
  let order : Order :=
    { signer := address
      maker := address
      taker := if params.taker = "public" then zeroAddress else params.taker
      tokenId := params.tokenId
      nonce := toString nonce
      salt := toString env.salt
      feeRateBps := toString feeRateBps
      expiration := toString params.expiration
      side := params.side
      signatureType := .eoa
      makerAmount := amounts.maker
      takerAmount := amounts.taker }
  let signature ← signOrder env.wallet order
  return { order with signature := signature }

/-- The `message` record of the ClobAuth attestation built by `signClobAuth`
in `packages/signer/src/sign/eip712.ts`. -/
structure ClobAuthMessage where
  address : String
  timestamp : String
  nonce : ℕ
  message : String
deriving DecidableEq, Repr

/-- The `domain` record of the ClobAuth attestation. -/
structure ClobAuthDomain where
  name : String
  version : String
  chainId : ℕ
deriving DecidableEq, Repr

/-- The full typed-data argument of `signer.signTypedData` in `signClobAuth`
(the static `types` schema is a fixed literal and is omitted). -/
structure ClobAuthTypedData where
  domain : ClobAuthDomain
  primaryType : String
  message : ClobAuthMessage
deriving DecidableEq, Repr

/-- The attestation signer collaborator of `signClobAuth`
(a `ConnectedWalletClient`): chain id, account address, and the opaque
`signTypedData` capability for ClobAuth payloads. -/
structure ClobSigner (ε : Type) where
  chainId : ℕ
  address : String
  signTypedData : ClobAuthTypedData → Except ε String

/-- The typed-data payload built inside `signClobAuth`, exactly as passed to
`signer.signTypedData`. -/
def buildClobAuthTypedData (chainId : ℕ) (address : String) (timestamp : ℤ)
    (nonce : ℕ) : ClobAuthTypedData :=
  { domain := { name := "ClobAuthDomain", version := "1", chainId := chainId }
    primaryType := "ClobAuth"
    message :=
      { address := address
        timestamp := toString timestamp
        nonce := nonce
        message := "This message attests that I control the given wallet" } }

/-- `signClobAuth` from `eip712.ts`: hands the attestation payload to the
external signer. -/
def signClobAuth {ε : Type} (signer : ClobSigner ε) (timestamp : ℤ) (nonce : ℕ) :
    Except ε String :=
  signer.signTypedData (buildClobAuthTypedData signer.chainId signer.address timestamp nonce)

/-! ### Concrete sample data used by witnesses -/

/-- A concrete order used to instantiate universally quantified statements. -/
def sampleOrder : Order :=
  { salt := "42"
    maker := "0xmaker"
    signer := "0xmaker"
    taker := zeroAddress
    tokenId := "123"
    makerAmount := "450000"
    takerAmount := "10000"
    expiration := "1000"
    nonce := "5"
    feeRateBps := "0"
    side := .BUY
    signatureType := .eoa }

/-- Concrete `createOrder` parameters: the spec's worked example
(price 0.45, size 100) on token "123", public taker. -/
def sampleParams : CreateOrderParams :=
  { tokenId := "123"
    price := 0.45
    side := .BUY
    size := 100
    expiration := 1000
    taker := "public" }

/-- A wallet whose external calls all succeed. -/
def okWallet : Wallet Unit :=
  { address := "0xmaker"
    chainId := 137
    getNonceMethod := some (Except.ok 5)
    signTypedData := fun _ => Except.ok "signature" }

/-- A wallet whose account does not provide `getNonce`. -/
def noNonceWallet : Wallet Unit :=
  { okWallet with getNonceMethod := none }

/-- An environment whose three external reads all succeed
(tick size "0.01", fee rate 0, nonce 5, salt 42). -/
def okEnv : OrderEnv Unit :=
  { wallet := okWallet
    getTickSize := fun _ => Except.ok "0.01"
    getFeeRateBps := fun _ => Except.ok 0
    salt := 42 }

/-- An environment whose tick-size lookup fails. -/
def failEnv : OrderEnv Unit :=
  { okEnv with getTickSize := fun _ => Except.error () }

/-- The parameters of `sampleParams` with the zero address passed explicitly
as the taker (instead of the literal `"public"`). -/
def zeroTakerParams : CreateOrderParams :=
  { sampleParams with taker := zeroAddress }

/-- The signed order `createOrder` produces from `okEnv` and `sampleParams`. -/
def sampleSignedOrder : SignedOrder :=
  { signer := "0xmaker"
    maker := "0xmaker"
    taker := zeroAddress
    tokenId := "123"
    nonce := "5"
    salt := "42"
    feeRateBps := "0"
    expiration := "1000"
    side := .BUY
    signatureType := .eoa
    makerAmount := "450000"
    takerAmount := "10000"
    signature := "signature" }

/-! ### Helper lemmas -/

lemma floor_eval {r : ℚ} {z : ℤ} (h1 : (z : ℚ) ≤ r) (h2 : r < z + 1) : ⌊r⌋ = z :=
  Int.floor_eq_iff.mpr ⟨h1, h2⟩

lemma tickDecimals_sample : tickDecimalsOf "0.01" = 2 := rfl

lemma sharesOf_100 : sharesOf 100 = 100 := by
  unfold sharesOf roundTo roundHalfAwayFromZero sizeDecimals
  rw [if_pos (by norm_num), show ⌊(100 : ℚ) * 10 ^ 2 + 1 / 2⌋ = 10000 from
    floor_eval (by norm_num) (by norm_num)]
  norm_num

lemma sharesRawOf_100 : sharesRawOf 100 = 10000 := by
  unfold sharesRawOf sizeDecimals
  rw [sharesOf_100, show ⌊(100 : ℚ) * 10 ^ 2⌋ = 10000 from
    floor_eval (by norm_num) (by norm_num)]

lemma roundedPrice_sample : roundedPriceOf 0.45 "0.01" = 9 / 20 := by
  unfold roundedPriceOf roundTo roundHalfAwayFromZero
  rw [tickDecimals_sample, if_pos (by norm_num),
    show ⌊(0.45 : ℚ) * 10 ^ 2 + 1 / 2⌋ = 45 from floor_eval (by norm_num) (by norm_num)]
  norm_num

lemma costOf_sample : costOf 0.45 100 "0.01" = 45 := by
  unfold costOf roundTo roundHalfAwayFromZero amountDecimalsOf sizeDecimals
  rw [tickDecimals_sample, sharesOf_100, roundedPrice_sample, if_pos (by norm_num),
    show ⌊(100 : ℚ) * (9 / 20) * 10 ^ (2 + 2) + 1 / 2⌋ = 450000 from
      floor_eval (by norm_num) (by norm_num)]
  norm_num

lemma costRawOf_sample : costRawOf 0.45 100 "0.01" = 450000 := by
  unfold costRawOf amountDecimalsOf sizeDecimals
  rw [tickDecimals_sample, costOf_sample,
    show ⌊(45 : ℚ) * 10 ^ (2 + 2)⌋ = 450000 from floor_eval (by norm_num) (by norm_num)]

lemma amounts_sample :
    calculateOrderAmounts .BUY 100 0.45 "0.01" = { maker := "450000", taker := "10000" } := by
  unfold calculateOrderAmounts
  rw [if_pos rfl, sharesRawOf_100, costRawOf_sample]
  rfl

lemma roundHalfAwayFromZero_nonneg {x : ℚ} (hx : 0 ≤ x) :
    0 ≤ roundHalfAwayFromZero x := by
  unfold roundHalfAwayFromZero
  rw [if_pos hx]
  exact Int.le_floor.mpr (by push_cast; linarith)

lemma roundTo_nonneg {x : ℚ} (n : ℕ) (hx : 0 ≤ x) : 0 ≤ roundTo x n := by
  unfold roundTo
  apply div_nonneg _ (by positivity)
  exact_mod_cast roundHalfAwayFromZero_nonneg (mul_nonneg hx (by positivity))

lemma roundHalfAwayFromZero_nonpos {x : ℚ} (hx : x ≤ 0) :
    roundHalfAwayFromZero x ≤ 0 := by
  unfold roundHalfAwayFromZero
  by_cases h : 0 ≤ x
  · rw [if_pos h, le_antisymm hx h,
      show ⌊(0 : ℚ) + 1 / 2⌋ = 0 from floor_eval (by norm_num) (by norm_num)]
  · rw [if_neg h]
    have hnn : 0 ≤ ⌊-x + 1 / 2⌋ :=
      Int.le_floor.mpr (by push_cast; linarith [not_le.mp h])
    omega

lemma roundTo_nonpos {x : ℚ} (n : ℕ) (hx : x ≤ 0) : roundTo x n ≤ 0 := by
  unfold roundTo
  have h1 : (roundHalfAwayFromZero (x * 10 ^ n) : ℚ) ≤ 0 := by
    exact_mod_cast roundHalfAwayFromZero_nonpos
      (mul_nonpos_iff.mpr (Or.inr ⟨hx, by positivity⟩))
  exact div_nonpos_iff.mpr (Or.inr ⟨h1, by positivity⟩)

/-! ### Claims about the amount calculator -/

/-- Claim C1: for every input to the amount calculator, side BUY yields
maker = the raw cost amount and taker = the raw shares amount, and side SELL
yields the exact inverse; in particular for price 0.45, size 100,
tickSize "0.01" the calculator produces sharesRaw "10000" and
costRaw "450000", so BUY yields maker "450000" and taker "10000". -/
theorem C1_buy_sell_amount_assignment :
    (∀ (size price : ℚ) (tickSize : String),
      calculateOrderAmounts .BUY size price tickSize =
        { maker := toString (costRawOf price size tickSize)
          taker := toString (sharesRawOf size) } ∧
      calculateOrderAmounts .SELL size price tickSize =
        { maker := toString (sharesRawOf size)
          taker := toString (costRawOf price size tickSize) }) ∧
    sharesRawOf 100 = 10000 ∧
    costRawOf 0.45 100 "0.01" = 450000 ∧
    calculateOrderAmounts .BUY 100 0.45 "0.01" =
      { maker := "450000", taker := "10000" } :=
  ⟨fun _ _ _ => ⟨rfl, rfl⟩, sharesRawOf_100, costRawOf_sample, amounts_sample⟩

/-- Claim C2: for positive price and size, both raw amounts are non-negative
integers, and because conversion to raw units truncates (floor), the raw cost
amount never exceeds `cost * 10 ^ amountDecimals`. -/
theorem C2_raw_amounts_nonneg_truncation (price size : ℚ) (tickSize : String)
    (hp : 0 < price) (hs : 0 < size) :
    0 ≤ sharesRawOf size ∧ 0 ≤ costRawOf price size tickSize ∧
    (costRawOf price size tickSize : ℚ) ≤
      costOf price size tickSize * 10 ^ amountDecimalsOf tickSize := by
  have hshares : 0 ≤ sharesOf size := roundTo_nonneg _ hs.le
  have hrp : 0 ≤ roundedPriceOf price tickSize := roundTo_nonneg _ hp.le
  have hcost : 0 ≤ costOf price size tickSize :=
    roundTo_nonneg _ (mul_nonneg hshares hrp)
  refine ⟨?_, ?_, Int.floor_le _⟩
  · exact Int.le_floor.mpr (by push_cast; exact mul_nonneg hshares (by positivity))
  · exact Int.le_floor.mpr (by push_cast; exact mul_nonneg hcost (by positivity))

/-- Witness for C2 at price 0.45, size 100, tickSize "0.01". -/
theorem C2_witness :
    (0 : ℚ) < 0.45 ∧ (0 : ℚ) < 100 ∧
    (0 ≤ sharesRawOf 100 ∧ 0 ≤ costRawOf 0.45 100 "0.01" ∧
      (costRawOf 0.45 100 "0.01" : ℚ) ≤
        costOf 0.45 100 "0.01" * 10 ^ amountDecimalsOf "0.01") :=
  ⟨by norm_num, by norm_num,
   C2_raw_amounts_nonneg_truncation 0.45 100 "0.01" (by norm_num) (by norm_num)⟩

/-- Claim C3 counterexample: at the invalid input price = 0 (non-positive,
size 100, tickSize "0.01") the amount calculator does not fail with any
error; it returns the result maker "0", taker "10000". -/
theorem C3_counterexample :
    calculateOrderAmounts .BUY 100 0 "0.01" = { maker := "0", taker := "10000" } := by
  have hrp : roundedPriceOf 0 "0.01" = 0 := by
    unfold roundedPriceOf roundTo roundHalfAwayFromZero
    rw [tickDecimals_sample, if_pos (by norm_num),
      show ⌊(0 : ℚ) * 10 ^ 2 + 1 / 2⌋ = 0 from floor_eval (by norm_num) (by norm_num)]
    norm_num
  have hc : costOf 0 100 "0.01" = 0 := by
    unfold costOf roundTo roundHalfAwayFromZero amountDecimalsOf sizeDecimals
    rw [tickDecimals_sample, sharesOf_100, hrp, if_pos (by norm_num),
      show ⌊(100 : ℚ) * 0 * 10 ^ (2 + 2) + 1 / 2⌋ = 0 from
        floor_eval (by norm_num) (by norm_num)]
    norm_num
  have hcr : costRawOf 0 100 "0.01" = 0 := by
    unfold costRawOf amountDecimalsOf sizeDecimals
    rw [tickDecimals_sample, hc,
      show ⌊(0 : ℚ) * 10 ^ (2 + 2)⌋ = 0 from floor_eval (by norm_num) (by norm_num)]
  unfold calculateOrderAmounts
  rw [if_pos rfl, sharesRawOf_100, hcr]
  rfl

/-- Claim C3 (amended): the amount calculator performs no input validation and
never fails; for a non-positive price (with non-negative size) it still
returns a result, whose raw cost amount is then non-positive. -/
theorem C3_amended_no_validation (price size : ℚ) (tickSize : String)
    (hp : price ≤ 0) (hs : 0 ≤ size) :
    calculateOrderAmounts .BUY size price tickSize =
      { maker := toString (costRawOf price size tickSize)
        taker := toString (sharesRawOf size) } ∧
    costRawOf price size tickSize ≤ 0 := by
  refine ⟨rfl, ?_⟩
  have hshares : 0 ≤ sharesOf size := roundTo_nonneg _ hs
  have hrp : roundedPriceOf price tickSize ≤ 0 := roundTo_nonpos _ hp
  have hcost : costOf price size tickSize ≤ 0 :=
    roundTo_nonpos _ (mul_nonpos_iff.mpr (Or.inl ⟨hshares, hrp⟩))
  have hprod : costOf price size tickSize * 10 ^ amountDecimalsOf tickSize ≤ 0 :=
    mul_nonpos_iff.mpr (Or.inr ⟨hcost, by positivity⟩)
  calc costRawOf price size tickSize ≤ ⌊(0 : ℚ)⌋ := Int.floor_le_floor hprod
    _ = 0 := Int.floor_zero

/-- Witness for the amended C3 at price 0, size 100, tickSize "0.01". -/
theorem C3_witness :
    (0 : ℚ) ≤ 0 ∧ (0 : ℚ) ≤ 100 ∧
    (calculateOrderAmounts .BUY 100 0 "0.01" =
      { maker := toString (costRawOf 0 100 "0.01")
        taker := toString (sharesRawOf 100) } ∧
      costRawOf 0 100 "0.01" ≤ 0) :=
  ⟨le_refl 0, by norm_num,
   C3_amended_no_validation 0 100 "0.01" (le_refl 0) (by norm_num)⟩

/-! ### Claims about typed-data assembly and signing -/

/-- Claim C4: in the typed-data message handed to the external signer, `side`
and `signatureType` are the integer codes (total mappings eoa→0, poly-proxy→1,
poly-gnosis-safe→2 and BUY→0, SELL→1), and every amount/id field is the
integer (`BigInt`) value of the order's string field, not the string. -/
theorem C4_integer_encoding_in_signed_message :
    signatureTypeToNumber .eoa = 0 ∧
    signatureTypeToNumber .polyProxy = 1 ∧
    signatureTypeToNumber .polyGnosisSafe = 2 ∧
    orderSideToNumber .BUY = 0 ∧
    orderSideToNumber .SELL = 1 ∧
    ∀ (chainId : ℕ) (order : Order),
      (buildOrderTypedData chainId order).message =
        { salt := BigIntOfString order.salt
          signer := order.signer
          maker := order.maker
          taker := order.taker
          tokenId := BigIntOfString order.tokenId
          nonce := BigIntOfString order.nonce
          feeRateBps := BigIntOfString order.feeRateBps
          expiration := BigIntOfString order.expiration
          side := orderSideToNumber order.side
          signatureType := signatureTypeToNumber order.signatureType
          makerAmount := BigIntOfString order.makerAmount
          takerAmount := BigIntOfString order.takerAmount } :=
  ⟨rfl, rfl, rfl, rfl, rfl, fun _ _ => rfl⟩

/-- Claim C5: when an order is signed, the typed-data domain's
verifyingContract is resolved from the static per-chain registry — chain id
137 selects the mainnet entry, any other chain id the test-network (Amoy)
entry — and `signOrder` passes exactly that payload to the signer. -/
theorem C5_verifying_contract_per_chain :
    (∀ (order : Order),
      (buildOrderTypedData 137 order).domain.verifyingContract =
        POLYGON_CONTRACTS.negRiskExchange) ∧
    (∀ (chainId : ℕ) (order : Order), chainId ≠ 137 →
      (buildOrderTypedData chainId order).domain.verifyingContract =
        POLYGON_AMOY_CONTRACTS.negRiskExchange) ∧
    (∀ {ε : Type} (w : Wallet ε) (order : Order),
      signOrder w order = w.signTypedData (buildOrderTypedData w.chainId order)) := by
  refine ⟨fun _ => rfl, fun chainId order h => ?_, fun _ _ => rfl⟩
  show (getContractForChain chainId).negRiskExchange = _
  unfold getContractForChain
  rw [if_neg h]

/-- Witness for C5 at the Amoy chain id 80002. -/
theorem C5_witness :
    (80002 : ℕ) ≠ 137 ∧
    (buildOrderTypedData 80002 sampleOrder).domain.verifyingContract =
      POLYGON_AMOY_CONTRACTS.negRiskExchange :=
  ⟨by decide, C5_verifying_contract_per_chain.2.1 80002 sampleOrder (by decide)⟩

/-- Claim C7: the attestation typed-data payload always has domain
{ClobAuthDomain, version 1, the signer's chain id}, primaryType "ClobAuth",
and message {the signer's address, the stringified timestamp, the given
nonce, and the fixed attestation sentence}. -/
theorem C7_clob_auth_payload {ε : Type} (signer : ClobSigner ε)
    (timestamp : ℤ) (nonce : ℕ) :
    signClobAuth signer timestamp nonce =
      signer.signTypedData
        (buildClobAuthTypedData signer.chainId signer.address timestamp nonce) ∧
    (buildClobAuthTypedData signer.chainId signer.address timestamp nonce).domain =
      { name := "ClobAuthDomain", version := "1", chainId := signer.chainId } ∧
    (buildClobAuthTypedData signer.chainId signer.address timestamp nonce).primaryType =
      "ClobAuth" ∧
    (buildClobAuthTypedData signer.chainId signer.address timestamp nonce).message =
      { address := signer.address
        timestamp := toString timestamp
        nonce := nonce
        message := "This message attests that I control the given wallet" } :=
  ⟨rfl, rfl, rfl, rfl⟩

/-! ### Claims about `createOrder` -/

lemma except_bind_error {ε α β : Type} (e : ε) (f : α → Except ε β) :
    ((Except.error e : Except ε α) >>= f) = Except.error e := rfl

lemma except_bind_ok {ε α β : Type} (a : α) (f : α → Except ε β) :
    ((Except.ok a : Except ε α) >>= f) = f a := rfl

lemma except_bind_eq_ok {ε α β : Type} {x : Except ε α} {f : α → Except ε β}
    {b : β} (h : (x >>= f) = Except.ok b) :
    ∃ a, x = Except.ok a ∧ f a = Except.ok b := by
  cases x with
  | error e =>
    rw [except_bind_error] at h
    exact Except.noConfusion h
  | ok a => exact ⟨a, rfl, h⟩

/-- Claim C6: `createOrder` proceeds past the three external reads (tick size,
fee rate, nonce) only when all three complete successfully, and if any one of
them fails the whole call fails, returning an error and no order. -/
theorem C6_fan_in_all_or_nothing {ε : Type} (env : OrderEnv ε)
    (params : CreateOrderParams) :
    ((∃ e, env.getTickSize params.tokenId = Except.error e) ∨
     (∃ e, env.getFeeRateBps params.tokenId = Except.error e) ∨
     (∃ e, getNonce env.wallet = Except.error e) →
      ∃ e, createOrder env params = Except.error e) ∧
    (∀ so, createOrder env params = Except.ok so →
      (∃ t, env.getTickSize params.tokenId = Except.ok t) ∧
      (∃ f, env.getFeeRateBps params.tokenId = Except.ok f) ∧
      (∃ n, getNonce env.wallet = Except.ok n)) := by
  constructor
  · rintro (⟨e, he⟩ | ⟨e, he⟩ | ⟨e, he⟩)
    · exact ⟨e, by simp only [createOrder, he, except_bind_error]⟩
    · cases h1 : env.getTickSize params.tokenId with
      | error e1 => exact ⟨e1, by simp only [createOrder, h1, except_bind_error]⟩
      | ok t =>
        exact ⟨e, by simp only [createOrder, h1, he, except_bind_ok, except_bind_error]⟩
    · cases h1 : env.getTickSize params.tokenId with
      | error e1 => exact ⟨e1, by simp only [createOrder, h1, except_bind_error]⟩
      | ok t =>
        cases h2 : env.getFeeRateBps params.tokenId with
        | error e2 =>
          exact ⟨e2, by simp only [createOrder, h1, h2, except_bind_ok, except_bind_error]⟩
        | ok f =>
          exact ⟨e, by
            simp only [createOrder, h1, h2, he, except_bind_ok, except_bind_error]⟩
  · intro so hso
    unfold createOrder at hso
    obtain ⟨t, ht, hso⟩ := except_bind_eq_ok hso
    obtain ⟨f, hf, hso⟩ := except_bind_eq_ok hso
    obtain ⟨n, hn, _⟩ := except_bind_eq_ok hso
    exact ⟨⟨t, ht⟩, ⟨f, hf⟩, ⟨n, hn⟩⟩

/-- Witness for C6: an environment whose tick-size read fails makes the whole
`createOrder` call fail. -/
theorem C6_witness :
    failEnv.getTickSize sampleParams.tokenId = Except.error () ∧
    createOrder failEnv sampleParams = Except.error () := by
  have h := (C6_fan_in_all_or_nothing failEnv sampleParams).1 (Or.inl ⟨(), rfl⟩)
  obtain ⟨⟨⟩, he⟩ := h
  exact ⟨rfl, he⟩

/-- Claim C8: the nonce lookup returns the account's nonce when the account
provides a nonce source, and exactly 0 when it does not. -/
theorem C8_nonce_default_zero :
    (∀ {ε : Type} (w : Wallet ε) (r : Except ε ℕ),
      w.getNonceMethod = some r → getNonce w = r) ∧
    (∀ {ε : Type} (w : Wallet ε),
      w.getNonceMethod = none → getNonce w = Except.ok 0) := by
  constructor
  · intro ε w r hr
    unfold getNonce
    rw [hr]
  · intro ε w hw
    unfold getNonce
    rw [hw]

/-- Witness for C8 on a wallet with a nonce source (nonce 5) and one
without. -/
theorem C8_witness :
    okWallet.getNonceMethod = some (Except.ok 5) ∧
    getNonce okWallet = Except.ok 5 ∧
    noNonceWallet.getNonceMethod = none ∧
    getNonce noNonceWallet = Except.ok 0 :=
  ⟨rfl, C8_nonce_default_zero.1 okWallet (Except.ok 5) rfl, rfl,
   C8_nonce_default_zero.2 noNonceWallet rfl⟩

lemma createOrder_okEnv :
    createOrder okEnv sampleParams = Except.ok sampleSignedOrder := by
  have h : calculateOrderAmounts .BUY 100 0.45 "0.01" =
      { maker := "450000", taker := "10000" } := amounts_sample
  show Except.ok
      { signer := "0xmaker", maker := "0xmaker"
        taker := if sampleParams.taker = "public" then zeroAddress else sampleParams.taker
        tokenId := "123", nonce := toString (5 : ℕ), salt := toString (42 : ℕ)
        feeRateBps := toString (0 : ℤ), expiration := toString (1000 : ℤ)
        side := .BUY, signatureType := .eoa
        makerAmount := (calculateOrderAmounts .BUY 100 0.45 "0.01").maker
        takerAmount := (calculateOrderAmounts .BUY 100 0.45 "0.01").taker,
        signature := "signature" } = Except.ok sampleSignedOrder
  rw [h]
  rfl

/-- Claim C9: every order produced by `createOrder` has signatureType `eoa`;
the other two signature types are never emitted. -/
theorem C9_signature_type_always_eoa {ε : Type} (env : OrderEnv ε)
    (params : CreateOrderParams) (so : SignedOrder)
    (h : createOrder env params = Except.ok so) :
    so.toOrder.signatureType = SignatureType.eoa := by
  unfold createOrder at h
  obtain ⟨t, _, h⟩ := except_bind_eq_ok h
  obtain ⟨f, _, h⟩ := except_bind_eq_ok h
  obtain ⟨n, _, h⟩ := except_bind_eq_ok h
  obtain ⟨sig, _, h⟩ := except_bind_eq_ok h
  injection h with h
  subst h
  rfl

/-- Witness for C9: the concrete successful environment yields a signed order
whose signature type is `eoa`. -/
theorem C9_witness :
    createOrder okEnv sampleParams = Except.ok sampleSignedOrder ∧
    sampleSignedOrder.toOrder.signatureType = SignatureType.eoa :=
  ⟨createOrder_okEnv,
   C9_signature_type_always_eoa okEnv sampleParams sampleSignedOrder createOrder_okEnv⟩

lemma createOrder_okEnv_zeroTaker :
    createOrder okEnv zeroTakerParams = Except.ok sampleSignedOrder := by
  have h : calculateOrderAmounts .BUY 100 0.45 "0.01" =
      { maker := "450000", taker := "10000" } := amounts_sample
  show Except.ok
      { signer := "0xmaker", maker := "0xmaker"
        taker := if zeroTakerParams.taker = "public" then zeroAddress else zeroTakerParams.taker
        tokenId := "123", nonce := toString (5 : ℕ), salt := toString (42 : ℕ)
        feeRateBps := toString (0 : ℤ), expiration := toString (1000 : ℤ)
        side := .BUY, signatureType := .eoa
        makerAmount := (calculateOrderAmounts .BUY 100 0.45 "0.01").maker
        takerAmount := (calculateOrderAmounts .BUY 100 0.45 "0.01").taker,
        signature := "signature" } = Except.ok sampleSignedOrder
  rw [h]
  rfl

/-- Claim C10 counterexample: a caller may pass the zero address itself as the
taker; the produced order's taker is then the zero address although the caller
did not pass "public", so "taker is the zero address exactly when the caller
passed public" fails in the only-if direction. -/
theorem C10_counterexample :
    zeroTakerParams.taker ≠ "public" ∧
    createOrder okEnv zeroTakerParams = Except.ok sampleSignedOrder ∧
    sampleSignedOrder.toOrder.taker = zeroAddress :=
  ⟨by decide, createOrder_okEnv_zeroTaker, rfl⟩

/-- Claim C10 (amended): in every order produced by `createOrder`, the taker
field is the zero address if the caller passed taker = "public", and otherwise
equals the caller-supplied taker unchanged (which may itself be the zero
address); maker and signer are both the wallet's account address. -/
theorem C10_taker_maker_signer {ε : Type} (env : OrderEnv ε)
    (params : CreateOrderParams) (so : SignedOrder)
    (h : createOrder env params = Except.ok so) :
    (params.taker = "public" → so.toOrder.taker = zeroAddress) ∧
    (params.taker ≠ "public" → so.toOrder.taker = params.taker) ∧
    so.toOrder.maker = env.wallet.address ∧
    so.toOrder.signer = env.wallet.address := by
  unfold createOrder at h
  obtain ⟨t, _, h⟩ := except_bind_eq_ok h
  obtain ⟨f, _, h⟩ := except_bind_eq_ok h
  obtain ⟨n, _, h⟩ := except_bind_eq_ok h
  obtain ⟨sig, _, h⟩ := except_bind_eq_ok h
  injection h with h
  subst h
  refine ⟨fun hp => ?_, fun hp => ?_, rfl, rfl⟩
  · show (if params.taker = "public" then zeroAddress else params.taker) = zeroAddress
    rw [if_pos hp]
  · show (if params.taker = "public" then zeroAddress else params.taker) = params.taker
    rw [if_neg hp]

/-- Witness for the amended C10: a public-taker order gets the zero address as
taker and the wallet address as maker. -/
theorem C10_witness :
    createOrder okEnv sampleParams = Except.ok sampleSignedOrder ∧
    sampleParams.taker = "public" ∧
    sampleSignedOrder.toOrder.taker = zeroAddress ∧
    sampleSignedOrder.toOrder.maker = okEnv.wallet.address :=
  ⟨createOrder_okEnv, rfl,
   (C10_taker_maker_signer okEnv sampleParams sampleSignedOrder createOrder_okEnv).1 rfl,
   (C10_taker_maker_signer okEnv sampleParams sampleSignedOrder createOrder_okEnv).2.2.1⟩

end Diced
